import Mathlib

/-!
Shallow embedding of the credential-lifecycle core of `mcm-client`:
the Vault secret-store session (`src/lib/vault/index.ts`) and the
DFSP JWS lifecycle state machine (`src/lib/stateMachine/states/dfspJWS.ts`).

Machine integers are modelled as `Int`/`Nat`; JavaScript truthiness of the
`||` default operator is modelled explicitly; fallible operations return
`Except`; effect traces (reconnects, waits, emitted events, service calls)
are carried as explicit fields so that call-count properties can be stated.
-/

namespace Mcm

/-! ## Vault error model and token-error classification -/

/-- A backend error as observed by the Vault client: an HTTP status code and
the `response.body.errors` message list (`e?.response?.statusCode`,
`e?.response?.body?.errors` in `_isTokenError`). -/
structure VaultErr where
  statusCode : Nat
  errors : List String
  deriving Repr, DecidableEq

/-- ASCII lowercasing of one character; stand-in for the per-character
effect of JavaScript `String.prototype.toLowerCase`. -/
def charToLower (c : Char) : Char :=
  if 65 ≤ c.toNat ∧ c.toNat ≤ 90 then Char.ofNat (c.toNat + 32) else c

/-- Lowercases a string character by character (kernel-reducible stand-in
for `String.prototype.toLowerCase`). -/
def toLowerStr (s : String) : String :=
  ⟨s.data.map charToLower⟩

/-- `true` when `pat` occurs as a contiguous run of `s`. -/
def charsContains (s pat : List Char) : Bool :=
  match s with
  | [] => pat.isEmpty
  | _ :: rest => pat.isPrefixOf s || charsContains rest pat

/-- `true` when `pat` occurs as a substring of `s`; executable stand-in for
JavaScript `String.prototype.includes`. -/
def strContains (s pat : String) : Bool :=
  charsContains s.data pat.data

/-- Embeds `Vault._isTokenError` (vault/index.ts lines 102-110): status 403
and some error message whose lowercase form contains both "token" and
"expired", or contains "permission denied". -/
def isTokenError (e : VaultErr) : Bool :=
  e.statusCode == 403 &&
    (e.errors.any (fun msg =>
        strContains (toLowerStr msg) "token" && strContains (toLowerStr msg) "expired") ||
     e.errors.any (fun msg => strContains (toLowerStr msg) "permission denied"))

/-! ## The token-refresh wrapper `_withTokenRefresh` -/

/-- JavaScript `v || d` on an optional number: `undefined` and `0` are falsy. -/
def jsOrDefault (v : Option Nat) (d : Nat) : Nat :=
  match v with
  | some n => if n == 0 then d else n
  | none => d

/-- Observable outcome of a `_withTokenRefresh` run: the final result, how
many times `fn` was attempted, how many times `connect()` was invoked, the
delays actually slept (`setTimeout(resolve, retryDelayMs)`), and the delays
announced in the "Waiting for ... ms" log line
(`delayMs = cfg.retryDelayMs || retryDelayMs`). -/
structure RefreshTrace (T : Type) where
  result : Except VaultErr T
  calls : Nat
  connects : Nat
  actualWaits : List Nat
  loggedWaits : List Nat
  deriving Repr

/-- Embeds `Vault._withTokenRefresh` (vault/index.ts lines 112-132).
`attempts i` is the outcome of the `(i+1)`-th call of `fn`; the source's
boolean `retry` parameter is modelled as `retriesLeft` (`true` = 1,
`false` = 0) so the recursion is structural. On a token error with a retry
left, the wrapper logs `delayMs = cfg.retryDelayMs || retryDelayMs`,
actually sleeps `retryDelayMs` (NOT `delayMs`: the source passes the
parameter, not the computed value, to `setTimeout`), calls `connect()`, and
recurses with `retry = false` and the default `retryDelayMs = 1000` (the
recursive call passes no third argument). `connect()` itself is assumed to
succeed. -/
def withTokenRefreshAux (cfgRetryDelayMs : Option Nat)
    (attempts : Nat → Except VaultErr T) (i : Nat) (retriesLeft : Nat)
    (retryDelayMs : Nat) : RefreshTrace T :=
  match attempts i with
  | .ok v => ⟨.ok v, 1, 0, [], []⟩
  | .error e =>
    if isTokenError e then
      match retriesLeft with
      | retries + 1 =>
        let delayMs := jsOrDefault cfgRetryDelayMs retryDelayMs
        let sub := withTokenRefreshAux cfgRetryDelayMs attempts (i + 1) retries 1000
        ⟨sub.result, 1 + sub.calls, 1 + sub.connects,
          retryDelayMs :: sub.actualWaits, delayMs :: sub.loggedWaits⟩
      | 0 => ⟨.error e, 1, 0, [], []⟩
    else
      ⟨.error e, 1, 0, [], []⟩

/-- `_withTokenRefresh(fn)` as invoked by the Vault methods: `retry = true`
(one retry left), `retryDelayMs = 1000` (the declared defaults). -/
def withTokenRefresh (cfgRetryDelayMs : Option Nat)
    (attempts : Nat → Except VaultErr T) : RefreshTrace T :=
  withTokenRefreshAux cfgRetryDelayMs attempts 0 1 1000

/-! ## State-machine-state accessors (vault/index.ts lines 231-241) -/

/-- `Vault.setStateMachineState`: wraps `_setSecret` in `_withTokenRefresh`. -/
def setStateMachineState (cfgRetryDelayMs : Option Nat)
    (attempts : Nat → Except VaultErr T) : RefreshTrace T :=
  withTokenRefresh cfgRetryDelayMs attempts

/-- `Vault.getStateMachineState`: wraps `_getSecret` in `_withTokenRefresh`. -/
def getStateMachineState (cfgRetryDelayMs : Option Nat)
    (attempts : Nat → Except VaultErr T) : RefreshTrace T :=
  withTokenRefresh cfgRetryDelayMs attempts

/-- `Vault.deleteStateMachineState`: calls `_deleteSecret` directly, with no
`_withTokenRefresh` wrapper — a single attempt, no reconnect, no wait. -/
def deleteStateMachineState (attempts : Nat → Except VaultErr T) :
    RefreshTrace T :=
  ⟨attempts 0, 1, 0, [], []⟩

/-- A concrete authorization error: Vault's "permission denied" with
status 403, as matched by `_isTokenError`. -/
def permissionDeniedErr : VaultErr :=
  { statusCode := 403, errors := ["permission denied"] }

/-! ## Renewal timer arithmetic in `connect` -/

/-- Embeds `MAX_TIMEOUT = Math.pow(2, 31) / 2 - 1` (vault/index.ts line 85).
Note this evaluates to `2 ^ 30 - 1 = 1073741823`, not `2 ^ 31 - 1`. -/
def MAX_TIMEOUT : Int := 2 ^ 31 / 2 - 1

/-- Embeds `tokenRefreshMs = Math.min((creds.auth.lease_duration - 30) * 1000,
MAX_TIMEOUT)` (vault/index.ts line 168). -/
def tokenRefreshMs (leaseDurationSeconds : Int) : Int :=
  min ((leaseDurationSeconds - 30) * 1000) MAX_TIMEOUT

/-- The renewal-timer slot of the Vault client (`this.reconnectTimer`). -/
structure ConnTimerState where
  reconnectTimer : Option Int
  deriving Repr, DecidableEq

/-- Embeds the timer update on a successful `connect()` (vault/index.ts lines
166-169): the pending timer, if any, is cleared, and a fresh one is armed
with delay `tokenRefreshMs leaseDurationSeconds`, to call `connect()` again. -/
def connectArmTimer (_s : ConnTimerState) (leaseDurationSeconds : Int) :
    ConnTimerState :=
  { reconnectTimer := some (tokenRefreshMs leaseDurationSeconds) }

/-! ## `healthCheck` (vault/index.ts lines 507-519) -/

/-- A health response; only the `status` field matters for the model. -/
structure HealthResponse where
  status : String
  deriving Repr, DecidableEq

/-- Embeds `Vault.healthCheck`: `assert(this.client)` runs OUTSIDE the
try/catch, so an uninitialized client raises an assertion error to the
caller; inside the try, a successful `/sys/health` request is returned as-is
and any request failure is downgraded to `{ status: 'DOWN' }`. -/
def healthCheck (clientInitialized : Bool)
    (request : Except VaultErr HealthResponse) :
    Except String HealthResponse :=
  if clientInitialized then
    .ok (match request with
      | .ok r => r
      | .error _ => { status := "DOWN" })
  else
    .error "AssertionError: this.client"

/-! ## `certIsValid` (vault/index.ts lines 431-437) -/

/-- A parsed certificate's validity window, in epoch milliseconds
(`cert.validity.notBefore.getTime()`, `cert.validity.notAfter.getTime()`). -/
structure Certificate where
  notBefore : Int
  notAfter : Int
  deriving Repr, DecidableEq

/-- Embeds `Vault.certIsValid`: returns
`cert.validity.notBefore.getTime() > date && date < cert.validity.notAfter.getTime()`. -/
def certIsValid (cert : Certificate) (date : Int) : Bool :=
  decide (cert.notBefore > date) && decide (date < cert.notAfter)

/-! ## The DFSP JWS lifecycle machine (stateMachine/states/dfspJWS.ts) -/

/-- The value resolved by `vault.createJWS()`: key pair plus creation time in
unix seconds. -/
structure JWSKeyData where
  publicKey : String
  privateKey : String
  createdAt : Nat
  deriving Repr, DecidableEq

/-- The machine context field `ctx.dfspJWS` after a successful Creating step:
the generated material plus `rotatesAt` in unix milliseconds. -/
structure DfspJWSRecord where
  publicKey : String
  privateKey : String
  createdAt : Nat
  rotatesAt : Nat
  deriving Repr, DecidableEq

/-- The slice of `MachineOpts` the JWS machine reads for rotation
scheduling; `jwsRotationIntervalMs` is optional in the source and defaulted
with JavaScript `||`. -/
structure MachineOpts where
  jwsRotationIntervalMs : Option Nat
  deriving Repr, DecidableEq

/-- Embeds the `assign` of the `creating.onDone` transition (dfspJWS.ts
lines 92-101): `jwsRotationIntervalMs = opts.jwsRotationIntervalMs ||
24*60*60*1000`, and the new context is `{ ...event.data, rotatesAt:
createdAt*1000 + jwsRotationIntervalMs }`. There is no minimum-interval
floor and no warning in this code path. -/
def mkDfspJWS (opts : MachineOpts) (data : JWSKeyData) : DfspJWSRecord :=
  let jwsRotationIntervalMs := jsOrDefault opts.jwsRotationIntervalMs (24 * 60 * 60 * 1000)
  let createdAt := data.createdAt
  { publicKey := data.publicKey
    privateKey := data.privateKey
    createdAt := data.createdAt
    rotatesAt := createdAt * 1000 + jwsRotationIntervalMs }

/-- The minimum rotation interval the repository's own unit test
(`dfspJWS.test.ts`, "should enforce minimum JWS rotation interval") expects:
30 minutes. -/
def MIN_JWS_ROTATION_INTERVAL_MS : Nat := 1800000

/-- Modelled from the spec: the Rotation Policy `computeRotatesAt`
(its implementation is not under `src/`; only the spec and the unit test
describe it). Returns `createdAtSeconds*1000 + max(requestedIntervalMs,
minIntervalMs)` together with whether clamping occurred (in which case a
warning naming both values is emitted). -/
def computeRotatesAtSpec (createdAtSeconds requestedIntervalMs minIntervalMs : Nat) :
    Nat × Bool :=
  (createdAtSeconds * 1000 + max requestedIntervalMs minIntervalMs,
    decide (requestedIntervalMs < minIntervalMs))

/-- Embeds the `delay` function of the `idle.after` transition (dfspJWS.ts
lines 65-71): `Math.max(ctx.dfspJWS.rotatesAt - Date.now(), 0)`. -/
def computeIdleDelay (rotatesAtMs nowMs : Int) : Int :=
  max (rotatesAtMs - nowMs) 0

/-- The three sub-states of the `createJWS` machine. -/
inductive JState
  | idle
  | creating
  | uploadingToHub
  deriving Repr, DecidableEq

/-- The externally sent events handled by the root `on` table. -/
inductive ExtEvent
  | CREATE_JWS
  | ROTATE_JWS
  deriving Repr, DecidableEq

/-- A root-level transition entry: target sub-state and xstate's `internal`
flag (`internal: false` forces exit and re-entry of the target even when
the machine is already in it). -/
structure RootTransition where
  target : JState
  internal : Bool
  deriving Repr, DecidableEq

/-- Embeds the root `on` table (dfspJWS.ts lines 56-59): both `CREATE_JWS`
and `ROTATE_JWS` target `.creating` with `internal: false`. -/
def rootOn : ExtEvent → RootTransition
  | .CREATE_JWS => { target := .creating, internal := false }
  | .ROTATE_JWS => { target := .creating, internal := false }

/-- Target of the `idle.after` delayed transition (dfspJWS.ts line 72). -/
def idleAfterTarget : JState := .creating

/-- Events sent by the machine's actions, as observed by its parent and by
the tests. -/
inductive Emitted
  | creatingNotif
  | uploadingNotif
  | propagatedNotif
  | updateConnectorConfig (jwsSigningKey : String)
  deriving Repr, DecidableEq

/-- Argument of a `dfspCertificateModel.uploadJWS` call (dfspJWS.ts lines
122-125): `{ publicKey: ctx.dfspJWS.publicKey, createdAt:
ctx.dfspJWS.createdAt }`. -/
structure UploadArgs where
  publicKey : String
  createdAt : Nat
  deriving Repr, DecidableEq

/-- `true` exactly on `UPDATE_CONNECTOR_CONFIG` emissions. -/
def isConfigUpdate : Emitted → Bool
  | .updateConnectorConfig _ => true
  | _ => false

/-- Machine configuration plus accumulated observable trace: current
sub-state, context, events sent (in order), number of `vault.createJWS`
calls, arguments of `uploadJWS` calls, and warnings logged by the machine
(the shipped machine never logs any). -/
structure MState where
  state : JState
  dfspJWS : Option DfspJWSRecord
  emitted : List Emitted
  genCalls : Nat
  uploadCalls : List UploadArgs
  warnings : List String
  deriving Repr, DecidableEq

/-- Runs the entry actions of a sub-state and moves into it: `creating`
sends `CREATING_DFSP_JWS` and (re)starts the create invoke; `uploadingToHub`
sends `UPLOADING_DFSP_JWS_TO_HUB` and starts the upload invoke; `idle` arms
the rotation timer (no emission). -/
def enterState (target : JState) (m : MState) : MState :=
  match target with
  | .creating => { m with state := .creating, emitted := m.emitted ++ [.creatingNotif] }
  | .uploadingToHub =>
    { m with state := .uploadingToHub, emitted := m.emitted ++ [.uploadingNotif] }
  | .idle => { m with state := .idle }

/-- Events the machine reacts to. `createResolved failures data` is the
resolution of the `dfspJWSCreate` invoke after `failures` failed service
attempts (modelled from the spec: the Retry Invoker `invokeRetry`, whose
implementation is not under `src/`, calls the service once per attempt at a
fixed interval until the first success, so a resolution after `failures`
failures entails `failures + 1` service calls); `uploadResolved` likewise
for `dfspJWSUpload`. -/
inductive MEvent
  | ext (e : ExtEvent)
  | createResolved (failures : Nat) (data : JWSKeyData)
  | uploadResolved (failures : Nat)
  | idleTimerFired

/-- One reaction of the `createJWS` machine (dfspJWS.ts lines 53-134).
External `CREATE_JWS`/`ROTATE_JWS` take the root transition (re-entering the
target when `internal: false`). `creating.onDone` runs the `assign` then the
`UPDATE_CONNECTOR_CONFIG` send, then enters `uploadingToHub`.
`uploadingToHub.onDone` sends `DFSP_JWS_PROPAGATED` and enters `idle`. The
idle timer's expiry targets `creating`. -/
def step (opts : MachineOpts) (m : MState) (ev : MEvent) : MState :=
  match ev with
  | .ext e =>
    let t := rootOn e
    if t.internal then { m with state := t.target } else enterState t.target m
  | .createResolved failures data =>
    match m.state with
    | .creating =>
      let jws := mkDfspJWS opts data
      enterState .uploadingToHub
        { m with genCalls := m.genCalls + failures + 1
                 dfspJWS := some jws
                 emitted := m.emitted ++ [.updateConnectorConfig jws.privateKey] }
    | _ => m
  | .uploadResolved failures =>
    match m.state, m.dfspJWS with
    | .uploadingToHub, some jws =>
      enterState .idle
        { m with uploadCalls := m.uploadCalls ++
                   List.replicate (failures + 1) ⟨jws.publicKey, jws.createdAt⟩
                 emitted := m.emitted ++ [.propagatedNotif] }
    | _, _ => m
  | .idleTimerFired =>
    match m.state with
    | .idle => enterState idleAfterTarget m
    | _ => m

/-- The machine at start: `initial: 'creating'`, empty context and trace,
with `creating`'s entry actions run. -/
def initialState : MState :=
  enterState .creating
    { state := .creating, dfspJWS := none, emitted := [], genCalls := 0,
      uploadCalls := [], warnings := [] }

/-- One Creating→Uploading→Idle cycle from machine start: the create invoke
resolves with `gen` after `cf` failed attempts, then the upload invoke
resolves after `uf` failed attempts. -/
def runCycle (opts : MachineOpts) (gen : JWSKeyData) (cf uf : Nat) : MState :=
  step opts (step opts initialState (.createResolved cf gen)) (.uploadResolved uf)

/-! ## Concrete inputs used by witnesses and counterexamples -/

/-- An operation whose first call fails with "permission denied" and whose
later calls succeed. -/
def oneTokenErrorAttempts (i : Nat) : Except VaultErr Unit :=
  if i == 0 then .error permissionDeniedErr else .ok ()

/-- An operation that fails with "permission denied" on every call. -/
def alwaysTokenErrorAttempts (_i : Nat) : Except VaultErr Unit :=
  .error permissionDeniedErr

/-- The generation result used by the unit tests (`dfspJWS.test.ts`). -/
def testGen : JWSKeyData :=
  { publicKey := "JWS PUBKEY", privateKey := "JWS PRIVKEY", createdAt := 1700000000 }

/-- Machine options with `jwsRotationIntervalMs = 1000`, below the
30-minute minimum the repository's unit test expects to be enforced. -/
def lowIntervalOpts : MachineOpts :=
  { jwsRotationIntervalMs := some 1000 }

/-! ## Helper lemmas on the token-refresh wrapper -/

/-- With no retries left, the wrapper returns the attempt's outcome
unchanged: one call, no reconnect, no wait. -/
theorem withTokenRefreshAux_zero_retries (cfg : Option Nat)
    (attempts : Nat → Except VaultErr T) (i d : Nat) :
    withTokenRefreshAux cfg attempts i 0 d = ⟨attempts i, 1, 0, [], []⟩ := by
  unfold withTokenRefreshAux
  cases h1 : attempts i with
  | ok v => rfl
  | error e1 => by_cases ht1 : isTokenError e1 <;> simp [ht1]

/-- A first-attempt success returns immediately: one call, no reconnect. -/
theorem withTokenRefresh_first_ok (cfg : Option Nat)
    (attempts : Nat → Except VaultErr T) (v : T) (h : attempts 0 = .ok v) :
    withTokenRefresh cfg attempts = ⟨.ok v, 1, 0, [], []⟩ := by
  unfold withTokenRefresh withTokenRefreshAux
  rw [h]

/-- A first-attempt authorization failure triggers exactly one reconnect and
one further attempt, whose outcome (success or any failure) is returned
unchanged; the actual sleep is the default 1000 ms while the logged delay is
`cfg.retryDelayMs || 1000`. -/
theorem withTokenRefresh_first_token_error (cfg : Option Nat)
    (attempts : Nat → Except VaultErr T) (e : VaultErr)
    (h : attempts 0 = .error e) (ht : isTokenError e = true) :
    withTokenRefresh cfg attempts =
      ⟨attempts 1, 2, 1, [1000], [jsOrDefault cfg 1000]⟩ := by
  unfold withTokenRefresh withTokenRefreshAux
  rw [h]
  simp [ht, withTokenRefreshAux_zero_retries]

/-- A first-attempt non-authorization failure propagates unchanged: one
call, no reconnect. -/
theorem withTokenRefresh_first_other_error (cfg : Option Nat)
    (attempts : Nat → Except VaultErr T) (e : VaultErr)
    (h : attempts 0 = .error e) (ht : isTokenError e = false) :
    withTokenRefresh cfg attempts = ⟨.error e, 1, 0, [], []⟩ := by
  unfold withTokenRefresh withTokenRefreshAux
  rw [h]
  simp [ht]

/-! ## Claim theorems -/

/-- Claim C1. The shipped Creating step applies no minimum-interval floor
and emits no warning: with `jwsRotationIntervalMs = 1000` (far below the
30-minute minimum) a successful cycle stores
`rotatesAt = createdAt*1000 + 1000` and logs nothing, whereas the spec's
Rotation Policy — and the repository's own unit test "should enforce
minimum JWS rotation interval" — require `createdAt*1000 + 1800000`
together with a clamping warning naming both values. -/
theorem creating_min_interval_floor_missing :
    (runCycle lowIntervalOpts testGen 0 0).dfspJWS =
      some { publicKey := "JWS PUBKEY", privateKey := "JWS PRIVKEY",
             createdAt := 1700000000, rotatesAt := 1700000000 * 1000 + 1000 } ∧
    (runCycle lowIntervalOpts testGen 0 0).warnings = [] ∧
    (computeRotatesAtSpec 1700000000 1000 MIN_JWS_ROTATION_INTERVAL_MS).1 =
      1700000000 * 1000 + 1800000 ∧
    (computeRotatesAtSpec 1700000000 1000 MIN_JWS_ROTATION_INTERVAL_MS).2 = true ∧
    (1700000000 * 1000 + 1000 : Nat) ≠ 1700000000 * 1000 + 1800000 := by
  decide

/-- Claim C2. A successful Creating→Uploading→Idle cycle (each invoked
operation succeeding on its first attempt) calls `vault.createJWS` exactly
once, calls `uploadJWS` exactly once with the `{publicKey, createdAt}` pair
of that generation, and emits exactly one `UPDATE_CONNECTOR_CONFIG` event
carrying that cycle's `privateKey` as `jwsSigningKey`. -/
theorem cycle_one_generation_one_upload_one_config (opts : MachineOpts)
    (gen : JWSKeyData) :
    (runCycle opts gen 0 0).state = JState.idle ∧
    (runCycle opts gen 0 0).genCalls = 1 ∧
    (runCycle opts gen 0 0).uploadCalls =
      [{ publicKey := gen.publicKey, createdAt := gen.createdAt }] ∧
    (runCycle opts gen 0 0).emitted.filter isConfigUpdate =
      [Emitted.updateConnectorConfig gen.privateKey] := by
  simp [runCycle, initialState, step, enterState, mkDfspJWS, isConfigUpdate]

/-- Claim C3. If a wrapped operation first fails with an authorization
error, `_withTokenRefresh` reconnects exactly once and retries exactly once,
returning the retry's outcome unchanged (in particular a second
authorization failure propagates with no further reconnect); a non-
authorization first failure propagates unchanged with no reconnect. -/
theorem withTokenRefresh_single_reconnect (cfg : Option Nat)
    (attempts : Nat → Except VaultErr T) (e : VaultErr)
    (h : attempts 0 = .error e) :
    (isTokenError e = true →
      (withTokenRefresh cfg attempts).connects = 1 ∧
      (withTokenRefresh cfg attempts).calls = 2 ∧
      (withTokenRefresh cfg attempts).result = attempts 1) ∧
    (isTokenError e = false →
      (withTokenRefresh cfg attempts).connects = 0 ∧
      (withTokenRefresh cfg attempts).calls = 1 ∧
      (withTokenRefresh cfg attempts).result = .error e) := by
  constructor
  · intro ht
    rw [withTokenRefresh_first_token_error cfg attempts e h ht]
    exact ⟨rfl, rfl, rfl⟩
  · intro ht
    rw [withTokenRefresh_first_other_error cfg attempts e h ht]
    exact ⟨rfl, rfl, rfl⟩

/-- Witness for C3 at a concrete operation: first call denied, retry
succeeds. -/
theorem withTokenRefresh_single_reconnect_witness :
    (withTokenRefresh none oneTokenErrorAttempts).connects = 1 ∧
    (withTokenRefresh none oneTokenErrorAttempts).calls = 2 ∧
    (withTokenRefresh none oneTokenErrorAttempts).result = oneTokenErrorAttempts 1 :=
  (withTokenRefresh_single_reconnect none oneTokenErrorAttempts
    permissionDeniedErr rfl).1 (by decide)

/-- Claim C4. The idle-state timer delay is
`max(rotatesAtMs - nowMs, 0)`: never negative, zero whenever `rotatesAt` is
already due, and its transition targets the `creating` state. -/
theorem computeIdleDelay_never_negative (rotatesAtMs nowMs : Int) :
    computeIdleDelay rotatesAtMs nowMs = max (rotatesAtMs - nowMs) 0 ∧
    0 ≤ computeIdleDelay rotatesAtMs nowMs ∧
    (rotatesAtMs ≤ nowMs → computeIdleDelay rotatesAtMs nowMs = 0) ∧
    idleAfterTarget = JState.creating := by
  refine ⟨rfl, le_max_right _ _, fun h => ?_, rfl⟩
  simp only [computeIdleDelay]
  exact max_eq_right (by omega)

/-- Witness for C4: a `rotatesAt` five milliseconds in the past yields a
zero delay. -/
theorem computeIdleDelay_never_negative_witness : computeIdleDelay 5 10 = 0 :=
  (computeIdleDelay_never_negative 5 10).2.2.1 (by decide)

/-- Claim C5. With `retryDelayMs = 5000` configured, the wrapper logs a
5000 ms wait but actually sleeps the hard-coded default 1000 ms before
reconnecting: `setTimeout` is passed the parameter `retryDelayMs`, not the
computed `delayMs`. -/
theorem refresh_wait_ignores_configured_delay :
    (withTokenRefresh (some 5000) oneTokenErrorAttempts).loggedWaits = [5000] ∧
    (withTokenRefresh (some 5000) oneTokenErrorAttempts).actualWaits = [1000] ∧
    ([1000] : List Nat) ≠ [5000] := by
  decide

/-- Counterexample for C6. `assert(this.client)` runs outside the
try/catch: invoking `healthCheck` with an uninitialized client propagates an
assertion error instead of returning a synthesized status. -/
theorem healthCheck_uninitialized_client_throws :
    healthCheck false (.ok { status := "UP" }) =
      .error "AssertionError: this.client" := rfl

/-- Claim C6 (amended). On a Vault whose client is initialized,
`healthCheck` never propagates an exception: it returns the backend health
response on success and `{ status: 'DOWN' }` when the health request
fails. -/
theorem healthCheck_initialized_never_throws (r : HealthResponse) (e : VaultErr) :
    healthCheck true (.ok r) = .ok r ∧
    healthCheck true (.error e) = .ok { status := "DOWN" } := ⟨rfl, rfl⟩

/-- Counterexample for C7. `MAX_TIMEOUT = Math.pow(2,31)/2 - 1` is
`2^30 - 1`, not `2^31 - 1`: a lease of 2,000,000 s yields a timer of
1,073,741,823 ms, not the 1,999,970,000 ms the claimed `2^31 - 1` clamp
would give. -/
theorem tokenRefreshMs_not_clamped_at_2pow31 :
    tokenRefreshMs 2000000 = 1073741823 ∧
    tokenRefreshMs 2000000 ≠ min ((2000000 - 30) * 1000) (2 ^ 31 - 1 : Int) := by
  decide

/-- Claim C7 (amended). After every successful `connect()` the pending
renewal timer is replaced by one armed at `(leaseDurationSeconds - 30) *
1000` ms clamped to `2^30 - 1` ms (the value of `Math.pow(2,31)/2 - 1`). -/
theorem connect_timer_rearmed_clamped (s : ConnTimerState) (lease : Int) :
    (connectArmTimer s lease).reconnectTimer =
      some (min ((lease - 30) * 1000) (2 ^ 30 - 1)) := by
  have hmax : MAX_TIMEOUT = 2 ^ 30 - 1 := by decide
  simp [connectArmTimer, tokenRefreshMs, hmax]

/-- Claim C8. In every sub-state — including `creating` itself — an
external `CREATE_JWS` or `ROTATE_JWS` event takes the root transition to
`creating` with `internal: false`, so the target is exited and re-entered:
its entry actions (and hence the invoked retry loop) are restarted. -/
theorem create_rotate_always_reenter_creating (opts : MachineOpts)
    (m : MState) (e : ExtEvent) :
    (rootOn e).target = JState.creating ∧
    (rootOn e).internal = false ∧
    (step opts m (.ext e)).state = JState.creating ∧
    (step opts m (.ext e)).emitted = m.emitted ++ [Emitted.creatingNotif] := by
  cases e <;> simp [rootOn, step, enterState]

/-- Claim C9. `certIsValid` returns `true` exactly when the date is
strictly earlier than `notBefore` (and earlier than `notAfter`); in
particular it returns `false` for any certificate whose validity period has
already begun at the given date. -/
theorem certIsValid_true_only_before_notBefore (cert : Certificate) (date : Int) :
    (certIsValid cert date = true ↔
      date < cert.notBefore ∧ date < cert.notAfter) ∧
    (cert.notBefore ≤ date → certIsValid cert date = false) := by
  constructor
  · simp [certIsValid]
  · intro h
    simp [certIsValid]
    omega

/-- Witness for C9: a certificate valid from 100 to 200 is reported invalid
at time 150, inside its own validity window. -/
theorem certIsValid_true_only_before_notBefore_witness :
    certIsValid { notBefore := 100, notAfter := 200 } 150 = false :=
  (certIsValid_true_only_before_notBefore
    { notBefore := 100, notAfter := 200 } 150).2 (by decide)

/-- Claim C10. `deleteStateMachineState` invokes the secret deletion
directly: an authorization failure propagates with no reconnect and no
retry, while `setStateMachineState` and `getStateMachineState`, wrapped in
`_withTokenRefresh`, reconnect once on the same failure. -/
theorem deleteStateMachineState_no_refresh (cfg : Option Nat)
    (attempts : Nat → Except VaultErr T) (e : VaultErr)
    (h : attempts 0 = .error e) (ht : isTokenError e = true) :
    (deleteStateMachineState attempts).result = .error e ∧
    (deleteStateMachineState attempts).connects = 0 ∧
    (deleteStateMachineState attempts).calls = 1 ∧
    (setStateMachineState cfg attempts).connects = 1 ∧
    (getStateMachineState cfg attempts).connects = 1 := by
  have hw := withTokenRefresh_first_token_error cfg attempts e h ht
  refine ⟨?_, rfl, rfl, ?_, ?_⟩
  · simp [deleteStateMachineState, h]
  · simp [setStateMachineState, hw]
  · simp [getStateMachineState, hw]

/-- Witness for C10 at a concrete always-denied operation. -/
theorem deleteStateMachineState_no_refresh_witness :
    (deleteStateMachineState alwaysTokenErrorAttempts).result =
      .error permissionDeniedErr ∧
    (deleteStateMachineState alwaysTokenErrorAttempts).connects = 0 ∧
    (deleteStateMachineState alwaysTokenErrorAttempts).calls = 1 ∧
    (setStateMachineState none alwaysTokenErrorAttempts).connects = 1 ∧
    (getStateMachineState none alwaysTokenErrorAttempts).connects = 1 :=
  deleteStateMachineState_no_refresh none alwaysTokenErrorAttempts
    permissionDeniedErr rfl (by decide)

end Mcm
